import Mathlib

set_option maxHeartbeats 1000000

namespace Bytechomp

/-- Modelled from the spec: the Elementary Type Registry of `bytechomp.datatypes`
(the `datatypes` module is not under src). A fixed, closed set of primitive kinds:
signed and unsigned integers of widths 8, 16, 32 and 64 bits, floating point of 32
and 64 bits, boolean and char. -/
inductive ElemKind where
  | u8 | u16 | u32 | u64
  | i8 | i16 | i32 | i64
  | f32 | f64
  | bool | char
deriving DecidableEq, Repr

/-- The in-memory Python value types a leaf decodes to. -/
inductive PyType where
  | int | float | bool | str | bytes
deriving DecidableEq, Repr

/-- Modelled from the spec: the canonical pack-primitive tag symbol of each
elementary kind (`TYPE_TO_TAG` in `bytechomp.datatypes`). -/
def TYPE_TO_TAG : ElemKind → String
  | .u8 => "B" | .u16 => "H" | .u32 => "I" | .u64 => "Q"
  | .i8 => "b" | .i16 => "h" | .i32 => "i" | .i64 => "q"
  | .f32 => "f" | .f64 => "d"
  | .bool => "?" | .char => "c"

/-- Modelled from the spec: the fixed byte length of each elementary kind
(`TYPE_TO_LENGTH` in `bytechomp.datatypes`). -/
def TYPE_TO_LENGTH : ElemKind → Int
  | .u8 => 1 | .u16 => 2 | .u32 => 4 | .u64 => 8
  | .i8 => 1 | .i16 => 2 | .i32 => 4 | .i64 => 8
  | .f32 => 4 | .f64 => 8
  | .bool => 1 | .char => 1

/-- Modelled from the spec: the in-memory value type each elementary kind decodes
to (`TYPE_TO_PYTYPE` in `bytechomp.datatypes`). -/
def TYPE_TO_PYTYPE : ElemKind → PyType
  | .u8 | .u16 | .u32 | .u64 | .i8 | .i16 | .i32 | .i64 => .int
  | .f32 | .f64 => .float
  | .bool => .bool
  | .char => .bytes

/-- A Python scalar value usable as a declared default on a field. Float
literals are carried opaquely as their source text; no operation inspects the
payload of a default. -/
inductive PyValue where
  | intV (n : Int)
  | floatV (lit : String)
  | strV (s : String)
  | bytesV (b : List Nat)
deriving DecidableEq, Repr

/-- The auxiliary (second) argument of an `Annotated[...]` form: an integer
literal, or any non-integer Python value (described by its text). -/
inductive AnnAux where
  | intA (n : Int)
  | nonIntA (descr : String)
deriving DecidableEq, Repr

mutual
/-- A declared Python field type, as `build_data_description` discriminates it:
an elementary registry kind (`field.type in ELEMENTARY_TYPE_LIST`), a nested
dataclass, an `Annotated[arg, aux...]` form, a bare `list`, `str` or `bytes`
type, or anything else. -/
inductive PyAnnType where
  | elem (k : ElemKind)
  | dataclass (s : Struct)
  | annotated (arg : AnnArgType) (aux : List AnnAux)
  | bareList
  | bareStr
  | bareBytes
  | other (descr : String)

/-- The first argument of an `Annotated[...]` form: `str`, `bytes`, a
`list[...]` type with its argument list, or any other type. -/
inductive AnnArgType where
  | strA
  | bytesA
  | listOf (args : List ListArg)
  | otherT (descr : String)

/-- One type argument of a `list[...]` form: an elementary kind, a dataclass,
or any other type. -/
inductive ListArg where
  | elemL (k : ElemKind)
  | dataclassL (s : Struct)
  | otherL (descr : String)

/-- One declared dataclass field: its name, declared type, and declared default
(`none` models `dataclasses.MISSING`). -/
inductive StructField where
  | mk (name : String) (ftype : PyAnnType) (default : Option PyValue)

/-- A dataclass definition: its name and ordered field list. -/
inductive Struct where
  | mk (name : String) (fields : List StructField)
end

def StructField.name : StructField → String
  | .mk n _ _ => n

def StructField.ftype : StructField → PyAnnType
  | .mk _ t _ => t

def StructField.default : StructField → Option PyValue
  | .mk _ _ d => d

def Struct.sname : Struct → String
  | .mk n _ => n

def Struct.fields : Struct → List StructField
  | .mk _ fs => fs

/-- The `parsing_type` slot of a `BasicParsingElement`: an elementary type, or
the `str` or `bytes` class. -/
inductive ParsingType where
  | elemT (k : ElemKind)
  | strT
  | bytesT
deriving DecidableEq, Repr

/-- Embeds the `BasicParsingElement` dataclass of `data_descriptor.py`. Raw
bytes are lists of byte values. -/
structure BasicParsingElement where
  parsing_type : ParsingType
  python_type : Option PyType
  parser_tag : String
  length : Int
  default_value : Option PyValue := none
  raw_data : List Nat := []
  parsed_value : Option PyValue := none
deriving DecidableEq, Repr

/-- One value of the description `OrderedDict`: a `BasicParsingElement`, a
Python list of sub-values, a nested description dict, or the dataclass type
object stored under the `__struct_type__` marker key. -/
inductive DescEntryVal where
  | basic (e : BasicParsingElement)
  | listV (subs : List DescEntryVal)
  | dict (entries : List (String × DescEntryVal))
  | structMarker (tname : String)

/-- The `BasicParsingElement` built for an elementary-kind occurrence: all four
structural slots are copied from the registry. -/
def elementaryElement (k : ElemKind) (dflt : Option PyValue) : BasicParsingElement :=
  { parsing_type := .elemT k
    python_type := some (TYPE_TO_PYTYPE k)
    parser_tag := TYPE_TO_TAG k
    length := TYPE_TO_LENGTH k
    default_value := dflt }

mutual
/-- Embeds `build_data_description`: the marker entry is inserted first, then
each declared field is processed in declaration order; a raised `Exception`
becomes `Except.error` carrying the message. -/
def build_data_description : Struct → Except String (List (String × DescEntryVal))
  | .mk tname tfields => do
    let entries ← buildFields tfields
    pure (("__struct_type__", DescEntryVal.structMarker tname) :: entries)

/-- The `for field in fields(datatype)` loop of `build_data_description`:
entries accumulate in declaration order; the first failing field aborts. -/
def buildFields : List StructField → Except String (List (String × DescEntryVal))
  | [] => pure []
  | f :: rest => do
    let v ← buildField f
    let vs ← buildFields rest
    pure ((f.name, v) :: vs)

/-- The body of the loop of `build_data_description` for one field: the
elementary, nested-dataclass, `Annotated`, bare-ambiguous and unsupported
branches, in the order the source tests them. -/
def buildField : StructField → Except String DescEntryVal
  | .mk fname ftype fdefault =>
    match ftype with
    | .elem k => pure (.basic (elementaryElement k fdefault))
    | .dataclass s =>
      match fdefault with
      | some _ =>
        throw ("cannot have default value on nested types (field: " ++ fname ++ ")")
      | none => do
        let d ← build_data_description s
        pure (.dict d)
    | .annotated arg aux =>
      match aux with
      | [AnnAux.intA len] => buildAnnotated fname fdefault arg len
      | [AnnAux.nonIntA _] =>
        throw "second annotated argument must be an integer to denote length"
      | _ =>
        throw ("annotated value should only have two arguments (field: " ++ fname ++ ")")
    | .bareList =>
      throw ("cannot have unannotated list, string, or bytes type (length required, field: "
        ++ fname ++ ")")
    | .bareStr =>
      throw ("cannot have unannotated list, string, or bytes type (length required, field: "
        ++ fname ++ ")")
    | .bareBytes =>
      throw ("cannot have unannotated list, string, or bytes type (length required, field: "
        ++ fname ++ ")")
    | .other descr =>
      throw ("unsupported data type (" ++ descr ++ ") on field " ++ fname)

/-- The `Annotated` branch of `build_data_description`, reached with the single
integer length argument `len`: the `str`, `bytes`, `list[...]` and unsupported
sub-branches. Python list replication `[x] * len` is empty for `len ≤ 0`, hence
`List.replicate len.toNat`. -/
def buildAnnotated (fname : String) (fdefault : Option PyValue) (arg : AnnArgType)
    (len : Int) : Except String DescEntryVal :=
  match arg with
  | .strA =>
    pure (.basic { parsing_type := .strT
                   python_type := some PyType.str
                   parser_tag := toString len ++ "s"
                   length := len
                   default_value := fdefault })
  | .bytesA =>
    pure (.basic { parsing_type := .bytesT
                   python_type := some PyType.bytes
                   parser_tag := toString len ++ "p"
                   length := len
                   default_value := fdefault })
  | .listOf largs =>
    match largs with
    | [ListArg.elemL k] =>
      pure (.listV (List.replicate len.toNat (.basic (elementaryElement k none))))
    | [ListArg.dataclassL s] => do
      let d ← build_data_description s
      pure (.listV (List.replicate len.toNat (.dict d)))
    | [ListArg.otherL descr] =>
      throw ("unsupported list type: " ++ descr ++ " (field: " ++ fname ++ ")")
    | _ =>
      throw ("list must contain only one kind of data type (field: " ++ fname ++ ")")
  | .otherT descr =>
    throw ("unsupported annotated type: " ++ descr ++ " (field: " ++ fname ++ ")")
end

mutual
/-- Embeds `build_data_pattern`: in-order traversal of the description entries,
skipping the `__struct_type__` marker, concatenating leaf tags, expanding lists
element by element, and recursing into nested dicts. -/
def build_data_pattern : List (String × DescEntryVal) → Except String String
  | [] => pure ""
  | (name, root) :: rest =>
    if name = "__struct_type__" then
      build_data_pattern rest
    else do
      let head ← patternOfValue name root
      let tail ← build_data_pattern rest
      pure (head ++ tail)

/-- The per-entry dispatch of `build_data_pattern`: a `BasicParsingElement`
contributes its tag, a list is walked element by element, a dict recurses, and
any other value (the stored type object) raises. -/
def patternOfValue (name : String) : DescEntryVal → Except String String
  | .basic e => pure e.parser_tag
  | .listV subs => patternOfList name subs
  | .dict entries => build_data_pattern entries
  | .structMarker _ => throw ("invalid element type found (" ++ name ++ ")")

/-- The inner loop of `build_data_pattern` over a list value: sub-elements may
only be parsing elements or dicts; anything else raises. -/
def patternOfList (name : String) : List DescEntryVal → Except String String
  | [] => pure ""
  | sub :: rest => do
    let head ←
      match sub with
      | DescEntryVal.basic e => pure e.parser_tag
      | DescEntryVal.dict entries => build_data_pattern entries
      | _ => throw ("invalid list type found (" ++ name ++ ")")
    let tail ← patternOfList name rest
    pure (head ++ tail)
end

/-- The composed pipeline: `build_data_description` then `build_data_pattern`
on one structure definition. -/
def patternOfStruct (s : Struct) : Except String String :=
  (build_data_description s).bind build_data_pattern

/-- The compiled contribution of one declared field: build it, then compile the
resulting description value. -/
def fieldPattern (f : StructField) : Except String String :=
  (buildField f).bind (patternOfValue f.name)

/-- Concatenation of a list of fallible pattern fragments, failing at the first
error. -/
def exceptConcat : List (Except String String) → Except String String
  | [] => pure ""
  | x :: rest => do
    let head ← x
    let tail ← exceptConcat rest
    pure (head ++ tail)

mutual
/-- All `BasicParsingElement` leaves contained in one description value. -/
def leavesOfVal : DescEntryVal → List BasicParsingElement
  | .basic e => [e]
  | .listV subs => leavesOfList subs
  | .dict entries => leavesOfEntries entries
  | .structMarker _ => []

def leavesOfList : List DescEntryVal → List BasicParsingElement
  | [] => []
  | v :: rest => leavesOfVal v ++ leavesOfList rest

/-- All `BasicParsingElement` leaves contained in a description dict. -/
def leavesOfEntries : List (String × DescEntryVal) → List BasicParsingElement
  | [] => []
  | (_, v) :: rest => leavesOfVal v ++ leavesOfEntries rest
end

/-- The string `s` concatenated with itself `n` times, used to state what a
repeated block contributes to the compiled pattern. -/
def repeatString (s : String) : Nat → String
  | 0 => ""
  | n + 1 => s ++ repeatString s n

/-- The leaf invariant the schema builder actually guarantees: a non-empty pack
tag always, and a positive length whenever the leaf is of an elementary
registry kind. -/
def goodLeaf (e : BasicParsingElement) : Prop :=
  e.parser_tag ≠ "" ∧ ∀ k, e.parsing_type = ParsingType.elemT k → 0 < e.length

/-- A concrete well-formed structure with one elementary field. -/
def S0 : Struct := .mk "Header" [.mk "ts" (.elem .u32) none]

/-- A concrete ill-formed structure: one bare (unannotated) `str` field. -/
def BadInner : Struct := .mk "Bad" [.mk "b" PyAnnType.bareStr none]

/-- A concrete structure with a zero-length annotated string field. -/
def S9 : Struct := .mk "Tagged" [.mk "tag0" (.annotated .strA [.intA 0]) none]

/-- A concrete structure with a zero-count repeated block over the ill-formed
nested structure `BadInner`. -/
def SC10 : Struct :=
  .mk "Wrapper" [.mk "xs" (.annotated (.listOf [.dataclassL BadInner]) [.intA 0]) none]

end Bytechomp

namespace Bytechomp

theorem build_data_description_mk (tname : String) (tfields : List StructField) :
    build_data_description (.mk tname tfields) =
      (buildFields tfields).bind (fun entries =>
        Except.ok (("__struct_type__", DescEntryVal.structMarker tname) :: entries)) := rfl

theorem buildFields_cons (f : StructField) (rest : List StructField) :
    buildFields (f :: rest) =
      (buildField f).bind (fun v =>
        (buildFields rest).bind (fun vs => Except.ok ((f.name, v) :: vs))) := rfl

theorem buildField_dataclass_none (fname : String) (s : Struct) :
    buildField (.mk fname (.dataclass s) none) =
      (build_data_description s).bind (fun d => Except.ok (DescEntryVal.dict d)) := rfl

theorem buildAnnotated_dataclassList (fname : String) (fd : Option PyValue) (s : Struct)
    (len : Int) :
    buildAnnotated fname fd (.listOf [ListArg.dataclassL s]) len =
      (build_data_description s).bind (fun d =>
        Except.ok (DescEntryVal.listV (List.replicate len.toNat (DescEntryVal.dict d)))) := rfl

theorem build_data_pattern_marker (m : DescEntryVal) (rest : List (String × DescEntryVal)) :
    build_data_pattern (("__struct_type__", m) :: rest) = build_data_pattern rest := by
  rw [build_data_pattern]
  simp

theorem build_data_pattern_cons (name : String) (root : DescEntryVal)
    (rest : List (String × DescEntryVal)) (hn : name ≠ "__struct_type__") :
    build_data_pattern ((name, root) :: rest) =
      (patternOfValue name root).bind (fun head =>
        (build_data_pattern rest).bind (fun tail => Except.ok (head ++ tail))) := by
  rw [build_data_pattern, if_neg hn]
  cases h1 : patternOfValue name root <;>
    cases h2 : build_data_pattern rest <;>
      simp [Except.bind, Except.map, Bind.bind, Functor.map, Pure.pure, Except.pure, h2]

theorem patternOfList_cons_basic (name : String) (e : BasicParsingElement)
    (rest : List DescEntryVal) :
    patternOfList name (DescEntryVal.basic e :: rest) =
      (patternOfList name rest).bind (fun tail => Except.ok (e.parser_tag ++ tail)) := rfl

theorem patternOfList_cons_dict (name : String) (entries : List (String × DescEntryVal))
    (rest : List DescEntryVal) :
    patternOfList name (DescEntryVal.dict entries :: rest) =
      (build_data_pattern entries).bind (fun head =>
        (patternOfList name rest).bind (fun tail => Except.ok (head ++ tail))) := by
  cases h1 : build_data_pattern entries <;>
    cases h2 : patternOfList name rest <;>
      simp [patternOfList, Except.bind, Except.map, Bind.bind, Functor.map, Pure.pure,
        Except.pure, h1, h2]

theorem patternOfList_replicate_basic (name : String) (e : BasicParsingElement) (n : Nat) :
    patternOfList name (List.replicate n (DescEntryVal.basic e)) =
      .ok (repeatString e.parser_tag n) := by
  induction n with
  | zero => rfl
  | succ m ih =>
    rw [List.replicate_succ, patternOfList_cons_basic, ih]
    rfl

theorem patternOfList_replicate_dict (name : String) (entries : List (String × DescEntryVal))
    (p : String) (h : build_data_pattern entries = .ok p) (n : Nat) :
    patternOfList name (List.replicate n (DescEntryVal.dict entries)) =
      .ok (repeatString p n) := by
  induction n with
  | zero => rfl
  | succ m ih =>
    rw [List.replicate_succ, patternOfList_cons_dict, h, ih]
    rfl

end Bytechomp

namespace Bytechomp

mutual

theorem patternOk_struct (s : Struct) (d : List (String × DescEntryVal))
    (h : build_data_description s = .ok d) :
    ∃ p, build_data_pattern d = .ok p := by
  cases s with
  | mk tname tfields =>
    rw [build_data_description_mk] at h
    cases hb : buildFields tfields with
    | error e => rw [hb] at h; simp [Except.bind] at h
    | ok entries =>
      rw [hb] at h
      simp only [Except.bind, Except.ok.injEq] at h
      subst h
      rw [build_data_pattern_marker]
      exact patternOk_fields tfields entries hb

theorem patternOk_fields (fs : List StructField) (entries : List (String × DescEntryVal))
    (h : buildFields fs = .ok entries) :
    ∃ p, build_data_pattern entries = .ok p := by
  cases fs with
  | nil =>
    cases h
    exact ⟨"", rfl⟩
  | cons f rest =>
    rw [buildFields_cons] at h
    cases hbf : buildField f with
    | error e => rw [hbf] at h; simp [Except.bind] at h
    | ok v =>
      rw [hbf] at h
      cases hbr : buildFields rest with
      | error e => rw [hbr] at h; simp [Except.bind] at h
      | ok vs =>
        rw [hbr] at h
        simp only [Except.bind, Except.ok.injEq] at h
        subst h
        obtain ⟨pt, hpt⟩ := patternOk_fields rest vs hbr
        by_cases hn : f.name = "__struct_type__"
        · rw [hn, build_data_pattern_marker]
          exact ⟨pt, hpt⟩
        · obtain ⟨ph, hph⟩ := patternOk_field f v f.name hbf
          rw [build_data_pattern_cons _ _ _ hn, hph, hpt]
          exact ⟨ph ++ pt, rfl⟩

theorem patternOk_field (f : StructField) (v : DescEntryVal) (name : String)
    (h : buildField f = .ok v) :
    ∃ p, patternOfValue name v = .ok p := by
  cases f with
  | mk fname ftype fdefault =>
    cases ftype with
    | elem k =>
      cases h
      exact ⟨_, rfl⟩
    | dataclass s =>
      cases fdefault with
      | some w => cases h
      | none =>
        rw [buildField_dataclass_none] at h
        cases hbs : build_data_description s with
        | error e => rw [hbs] at h; simp [Except.bind] at h
        | ok d0 =>
          rw [hbs] at h
          simp only [Except.bind, Except.ok.injEq] at h
          subst h
          obtain ⟨p, hp⟩ := patternOk_struct s d0 hbs
          exact ⟨p, hp⟩
    | annotated arg aux =>
      rcases aux with _ | ⟨a, aux'⟩
      · cases h
      · cases a with
        | intA len =>
          cases aux' with
          | nil => exact patternOk_ann fname fdefault arg len v name h
          | cons b rest => cases h
        | nonIntA descr =>
          cases aux' with
          | nil => cases h
          | cons b rest => cases h
    | bareList => cases h
    | bareStr => cases h
    | bareBytes => cases h
    | other descr => cases h

theorem patternOk_ann (fname : String) (fd : Option PyValue) (arg : AnnArgType) (len : Int)
    (v : DescEntryVal) (name : String) (h : buildAnnotated fname fd arg len = .ok v) :
    ∃ p, patternOfValue name v = .ok p := by
  cases arg with
  | strA =>
    cases h
    exact ⟨_, rfl⟩
  | bytesA =>
    cases h
    exact ⟨_, rfl⟩
  | otherT descr => cases h
  | listOf largs =>
    rcases largs with _ | ⟨a, largs'⟩
    · cases h
    · cases a with
      | elemL k =>
        cases largs' with
        | nil =>
          cases h
          exact ⟨_, patternOfList_replicate_basic name _ _⟩
        | cons b r => cases h
      | dataclassL s =>
        cases largs' with
        | nil =>
          rw [buildAnnotated_dataclassList] at h
          cases hbs : build_data_description s with
          | error e => rw [hbs] at h; simp [Except.bind] at h
          | ok d0 =>
            rw [hbs] at h
            simp only [Except.bind, Except.ok.injEq] at h
            subst h
            obtain ⟨p, hp⟩ := patternOk_struct s d0 hbs
            exact ⟨repeatString p len.toNat,
              patternOfList_replicate_dict name d0 p hp len.toNat⟩
        | cons b r => cases h
      | otherL descr =>
        cases largs' with
        | nil => cases h
        | cons b r => cases h

end

end Bytechomp

namespace Bytechomp

theorem exceptConcat_cons (x : Except String String) (l : List (Except String String)) :
    exceptConcat (x :: l) =
      x.bind (fun head => (exceptConcat l).bind (fun tail => Except.ok (head ++ tail))) := by
  cases h1 : x <;>
    cases h2 : exceptConcat l <;>
      simp [exceptConcat, Except.bind, Except.map, Bind.bind, Functor.map, Pure.pure,
        Except.pure, h1, h2]

theorem patternOfStruct_mk (tname : String) (fs : List StructField) :
    patternOfStruct (.mk tname fs) = (buildFields fs).bind build_data_pattern := by
  rw [patternOfStruct, build_data_description_mk]
  cases hb : buildFields fs with
  | error e => rfl
  | ok entries =>
    simp only [Except.bind]
    exact build_data_pattern_marker _ _

theorem fieldPattern_ok (f : StructField) (v : DescEntryVal) (h : buildField f = .ok v) :
    fieldPattern f = patternOfValue f.name v := by
  rw [fieldPattern, h]
  rfl

theorem buildFields_pattern_hom (fs : List StructField)
    (hn : ∀ f ∈ fs, f.name ≠ "__struct_type__") :
    (buildFields fs).bind build_data_pattern = exceptConcat (fs.map fieldPattern) := by
  induction fs with
  | nil => rfl
  | cons f rest ih =>
    have hnf : f.name ≠ "__struct_type__" := hn f (List.mem_cons_self f rest)
    have hnr : ∀ g ∈ rest, g.name ≠ "__struct_type__" :=
      fun g hg => hn g (List.mem_cons_of_mem f hg)
    rw [List.map_cons, exceptConcat_cons, buildFields_cons]
    cases hbf : buildField f with
    | error e =>
      simp [Except.bind, fieldPattern, hbf]
    | ok v =>
      obtain ⟨ph, hph⟩ := patternOk_field f v f.name hbf
      have hfp : fieldPattern f = .ok ph := by rw [fieldPattern_ok f v hbf]; exact hph
      cases hbr : buildFields rest with
      | error e =>
        rw [← ih hnr, hbr]
        simp [Except.bind, hfp]
      | ok vs =>
        rw [← ih hnr, hbr]
        simp only [Except.bind, hfp]
        rw [build_data_pattern_cons _ _ _ hnf, hph]
        rfl

theorem append_ne_empty_of_ne (a b : String) (hb : b ≠ "") : a ++ b ≠ "" := by
  intro h
  apply hb
  have hd := congrArg String.data h
  rw [String.data_append] at hd
  rcases List.append_eq_nil.mp hd with ⟨h1, h2⟩
  exact String.ext h2

theorem elementaryElement_parser_tag (k : ElemKind) (d : Option PyValue) :
    (elementaryElement k d).parser_tag = TYPE_TO_TAG k := rfl

theorem elementaryElement_length (k : ElemKind) (d : Option PyValue) :
    (elementaryElement k d).length = TYPE_TO_LENGTH k := rfl

theorem goodLeaf_elementary (k : ElemKind) (d : Option PyValue) :
    goodLeaf (elementaryElement k d) := by
  refine ⟨?_, fun k2 h2 => ?_⟩
  · rw [elementaryElement_parser_tag]
    cases k <;> decide
  · rw [elementaryElement_length]
    cases k <;> decide

theorem leavesOfVal_basic (e : BasicParsingElement) :
    leavesOfVal (DescEntryVal.basic e) = [e] := rfl

theorem mem_leaves_replicate (n : Nat) (v : DescEntryVal) (e : BasicParsingElement)
    (h : e ∈ leavesOfList (List.replicate n v)) : e ∈ leavesOfVal v := by
  induction n with
  | zero => simp [List.replicate, leavesOfList] at h
  | succ m ih =>
    rw [List.replicate_succ] at h
    have : leavesOfList (v :: List.replicate m v) =
        leavesOfVal v ++ leavesOfList (List.replicate m v) := rfl
    rw [this] at h
    rcases List.mem_append.mp h with h1 | h2
    · exact h1
    · exact ih h2

theorem buildFields_error_of_mem (fs : List StructField) (f : StructField) (hf : f ∈ fs)
    (e : String) (he : buildField f = .error e) : ∃ e2, buildFields fs = .error e2 := by
  induction fs with
  | nil => cases hf
  | cons g rest ih =>
    rw [buildFields_cons]
    cases hbg : buildField g with
    | error e3 => exact ⟨e3, rfl⟩
    | ok v =>
      rcases List.mem_cons.mp hf with hg | hrest
      · subst hg
        rw [hbg] at he
        cases he
      · obtain ⟨e2, h2⟩ := ih hrest
        rw [h2]
        exact ⟨e2, rfl⟩

theorem build_error_of_field (s : Struct) (f : StructField) (hf : f ∈ s.fields) (e : String)
    (he : buildField f = .error e) : ∃ e2, build_data_description s = .error e2 := by
  cases s with
  | mk n fs =>
    have hf2 : f ∈ fs := hf
    obtain ⟨e2, h2⟩ := buildFields_error_of_mem fs f hf2 e he
    rw [build_data_description_mk, h2]
    exact ⟨e2, rfl⟩

mutual

theorem leafInv_struct (s : Struct) (d : List (String × DescEntryVal))
    (h : build_data_description s = .ok d) (e : BasicParsingElement)
    (he : e ∈ leavesOfEntries d) : goodLeaf e := by
  cases s with
  | mk tname tfields =>
    rw [build_data_description_mk] at h
    cases hb : buildFields tfields with
    | error e2 => rw [hb] at h; simp [Except.bind] at h
    | ok entries =>
      rw [hb] at h
      simp only [Except.bind, Except.ok.injEq] at h
      subst h
      have : leavesOfEntries (("__struct_type__", DescEntryVal.structMarker tname) :: entries)
          = leavesOfEntries entries := rfl
      rw [this] at he
      exact leafInv_fields tfields entries hb e he

theorem leafInv_fields (fs : List StructField) (entries : List (String × DescEntryVal))
    (h : buildFields fs = .ok entries) (e : BasicParsingElement)
    (he : e ∈ leavesOfEntries entries) : goodLeaf e := by
  cases fs with
  | nil =>
    cases h
    simp [leavesOfEntries] at he
  | cons f rest =>
    rw [buildFields_cons] at h
    cases hbf : buildField f with
    | error e2 => rw [hbf] at h; simp [Except.bind] at h
    | ok v =>
      rw [hbf] at h
      cases hbr : buildFields rest with
      | error e2 => rw [hbr] at h; simp [Except.bind] at h
      | ok vs =>
        rw [hbr] at h
        simp only [Except.bind, Except.ok.injEq] at h
        subst h
        have : leavesOfEntries ((f.name, v) :: vs) = leavesOfVal v ++ leavesOfEntries vs := rfl
        rw [this] at he
        rcases List.mem_append.mp he with h1 | h2
        · exact leafInv_field f v hbf e h1
        · exact leafInv_fields rest vs hbr e h2

theorem leafInv_field (f : StructField) (v : DescEntryVal)
    (h : buildField f = .ok v) (e : BasicParsingElement)
    (he : e ∈ leavesOfVal v) : goodLeaf e := by
  cases f with
  | mk fname ftype fdefault =>
    cases ftype with
    | elem k =>
      cases h
      rw [leavesOfVal_basic, List.mem_singleton] at he
      subst he
      exact goodLeaf_elementary k fdefault
    | dataclass s =>
      cases fdefault with
      | some w => cases h
      | none =>
        rw [buildField_dataclass_none] at h
        cases hbs : build_data_description s with
        | error e2 => rw [hbs] at h; simp [Except.bind] at h
        | ok d0 =>
          rw [hbs] at h
          simp only [Except.bind, Except.ok.injEq] at h
          subst h
          exact leafInv_struct s d0 hbs e he
    | annotated arg aux =>
      rcases aux with _ | ⟨a, aux'⟩
      · cases h
      · cases a with
        | intA len =>
          cases aux' with
          | nil => exact leafInv_ann fname fdefault arg len v h e he
          | cons b rest => cases h
        | nonIntA descr =>
          cases aux' with
          | nil => cases h
          | cons b rest => cases h
    | bareList => cases h
    | bareStr => cases h
    | bareBytes => cases h
    | other descr => cases h

theorem leafInv_ann (fname : String) (fd : Option PyValue) (arg : AnnArgType) (len : Int)
    (v : DescEntryVal) (h : buildAnnotated fname fd arg len = .ok v)
    (e : BasicParsingElement) (he : e ∈ leavesOfVal v) : goodLeaf e := by
  cases arg with
  | strA =>
    cases h
    rw [leavesOfVal_basic, List.mem_singleton] at he
    subst he
    refine ⟨append_ne_empty_of_ne _ _ (by decide), ?_⟩
    intro k2 hk
    exact ParsingType.noConfusion hk
  | bytesA =>
    cases h
    rw [leavesOfVal_basic, List.mem_singleton] at he
    subst he
    refine ⟨append_ne_empty_of_ne _ _ (by decide), ?_⟩
    intro k2 hk
    exact ParsingType.noConfusion hk
  | otherT descr => cases h
  | listOf largs =>
    rcases largs with _ | ⟨a, largs'⟩
    · cases h
    · cases a with
      | elemL k =>
        cases largs' with
        | nil =>
          cases h
          have := mem_leaves_replicate len.toNat _ e he
          rw [leavesOfVal_basic, List.mem_singleton] at this
          subst this
          exact goodLeaf_elementary k none
        | cons b r => cases h
      | dataclassL s =>
        cases largs' with
        | nil =>
          rw [buildAnnotated_dataclassList] at h
          cases hbs : build_data_description s with
          | error e2 => rw [hbs] at h; simp [Except.bind] at h
          | ok d0 =>
            rw [hbs] at h
            simp only [Except.bind, Except.ok.injEq] at h
            subst h
            have := mem_leaves_replicate len.toNat _ e he
            exact leafInv_struct s d0 hbs e this
        | cons b r => cases h
      | otherL descr =>
        cases largs' with
        | nil => cases h
        | cons b r => cases h

end

end Bytechomp

namespace Bytechomp

theorem buildFields_elem_mem (fs : List StructField) (entries : List (String × DescEntryVal))
    (h : buildFields fs = .ok entries) (f : StructField) (hf : f ∈ fs) (k : ElemKind)
    (hk : f.ftype = .elem k) :
    (f.name, DescEntryVal.basic (elementaryElement k f.default)) ∈ entries := by
  induction fs generalizing entries with
  | nil => cases hf
  | cons g rest ih =>
    rw [buildFields_cons] at h
    cases hbg : buildField g with
    | error e => rw [hbg] at h; simp [Except.bind] at h
    | ok v =>
      rw [hbg] at h
      cases hbr : buildFields rest with
      | error e => rw [hbr] at h; simp [Except.bind] at h
      | ok vs =>
        rw [hbr] at h
        simp only [Except.bind, Except.ok.injEq] at h
        subst h
        rcases List.mem_cons.mp hf with hg | hrest
        · subst hg
          have hbf : buildField f = .ok (.basic (elementaryElement k f.default)) := by
            cases f with
            | mk n t d =>
              simp [StructField.ftype] at hk
              subst hk
              rfl
          rw [hbf] at hbg
          cases hbg
          exact List.mem_cons_self _ _
        · exact List.mem_cons_of_mem _ (ih vs hbr hrest)

/-- C1: for every field whose declared type is an elementary registry kind,
`build_data_description` emits a leaf whose pack tag, byte length and in-memory
value type are exactly the registry entries for that kind, and whose default
value equals the declared default of the field (none when none was declared). -/
theorem elementary_field_matches_registry (s : Struct) (d : List (String × DescEntryVal))
    (h : build_data_description s = .ok d) (f : StructField) (hf : f ∈ s.fields)
    (k : ElemKind) (hk : f.ftype = .elem k) :
    (f.name, DescEntryVal.basic
      { parsing_type := ParsingType.elemT k
        python_type := some (TYPE_TO_PYTYPE k)
        parser_tag := TYPE_TO_TAG k
        length := TYPE_TO_LENGTH k
        default_value := f.default }) ∈ d := by
  cases s with
  | mk tname tfields =>
    rw [build_data_description_mk] at h
    cases hb : buildFields tfields with
    | error e => rw [hb] at h; simp [Except.bind] at h
    | ok entries =>
      rw [hb] at h
      simp only [Except.bind, Except.ok.injEq] at h
      subst h
      exact List.mem_cons_of_mem _ (buildFields_elem_mem tfields entries hb f hf k hk)

theorem elementary_field_matches_registry_checked :
    ((StructField.mk "ts" (.elem .u32) none).name, DescEntryVal.basic
      { parsing_type := ParsingType.elemT .u32
        python_type := some (TYPE_TO_PYTYPE .u32)
        parser_tag := TYPE_TO_TAG .u32
        length := TYPE_TO_LENGTH .u32
        default_value := (StructField.mk "ts" (.elem .u32) none).default }) ∈
      [("__struct_type__", DescEntryVal.structMarker "Header"),
       ("ts", DescEntryVal.basic (elementaryElement .u32 none))] :=
  elementary_field_matches_registry S0
    [("__struct_type__", DescEntryVal.structMarker "Header"),
     ("ts", DescEntryVal.basic (elementaryElement .u32 none))]
    rfl (StructField.mk "ts" (.elem .u32) none) (List.mem_singleton.mpr rfl) .u32 rfl

/-- C2: compiling the pattern of a structure equals the concatenation, in field
declaration order, of the compiled contribution of each field, and the
contribution of a nested-structure field is the compiled pattern of the nested
structure itself, inserted verbatim. -/
theorem compile_pattern_concat_hom (tname : String) (fs : List StructField)
    (hn : ∀ f ∈ fs, f.name ≠ "__struct_type__") :
    patternOfStruct (.mk tname fs) = exceptConcat (fs.map fieldPattern) ∧
    ∀ fname t, fieldPattern (.mk fname (.dataclass t) none) = patternOfStruct t := by
  constructor
  · rw [patternOfStruct_mk]
    exact buildFields_pattern_hom fs hn
  · intro fname t
    rw [fieldPattern, buildField_dataclass_none, patternOfStruct]
    cases hbt : build_data_description t with
    | error e => rfl
    | ok d0 => rfl

theorem compile_pattern_concat_hom_checked :
    (patternOfStruct (.mk "Outer" [StructField.mk "x" (.elem .u32) none]) =
      exceptConcat ([StructField.mk "x" (.elem .u32) none].map fieldPattern)) ∧
    ∀ fname t, fieldPattern (.mk fname (.dataclass t) none) = patternOfStruct t :=
  compile_pattern_concat_hom "Outer" [StructField.mk "x" (.elem .u32) none]
    (by intro f hf; rw [List.mem_singleton] at hf; subst hf; decide)

/-- C3: a field declared as a fixed-size repeated sequence of an elementary kind
with count N yields a block of N identical registry-derived leaves carrying no
default value, and that block compiles to the elementary tag repeated N times. -/
theorem repeated_elementary_block_pattern (fname : String) (fd : Option PyValue)
    (k : ElemKind) (N : Nat) :
    buildField (.mk fname (.annotated (.listOf [ListArg.elemL k]) [AnnAux.intA (N : Int)]) fd)
      = .ok (.listV (List.replicate N (.basic (elementaryElement k none)))) ∧
    patternOfValue fname (.listV (List.replicate N (.basic (elementaryElement k none))))
      = .ok (repeatString (TYPE_TO_TAG k) N) := by
  constructor
  · rfl
  · have h := patternOfList_replicate_basic fname (elementaryElement k none) N
    rw [elementaryElement_parser_tag] at h
    exact h

/-- C4: a length-qualified string field of integer length L yields a leaf with
pack tag `toString L ++ "s"`, length L and text value type; a length-qualified
bytes field yields pack tag `toString L ++ "p"`, length L and raw-bytes value
type. -/
theorem annotated_string_and_bytes_leaf (fname : String) (fd : Option PyValue) (L : Int) :
    buildField (.mk fname (.annotated .strA [AnnAux.intA L]) fd)
      = .ok (.basic { parsing_type := ParsingType.strT
                      python_type := some PyType.str
                      parser_tag := toString L ++ "s"
                      length := L
                      default_value := fd }) ∧
    buildField (.mk fname (.annotated .bytesA [AnnAux.intA L]) fd)
      = .ok (.basic { parsing_type := ParsingType.bytesT
                      python_type := some PyType.bytes
                      parser_tag := toString L ++ "p"
                      length := L
                      default_value := fd }) :=
  ⟨rfl, rfl⟩

/-- C5: a nested-structure field with a declared default always fails with the
message naming the field, and without a default the builder recurses and emits
the sub-description of the nested type. -/
theorem nested_default_rejected_else_recurse (fname : String) (s : Struct) (v : PyValue) :
    buildField (.mk fname (.dataclass s) (some v)) =
      .error ("cannot have default value on nested types (field: " ++ fname ++ ")") ∧
    buildField (.mk fname (.dataclass s) none) =
      (build_data_description s).map DescEntryVal.dict := by
  refine ⟨rfl, ?_⟩
  rw [buildField_dataclass_none]
  cases build_data_description s <;> rfl

/-- C6: a bare list, str or bytes field always fails with the message that
unannotated list, string or bytes types are not allowed (length required),
naming the field; a structure containing such a field never builds. -/
theorem bare_type_always_rejected (s : Struct) (f : StructField) (hf : f ∈ s.fields)
    (hb : f.ftype = .bareList ∨ f.ftype = .bareStr ∨ f.ftype = .bareBytes) :
    buildField f =
      .error ("cannot have unannotated list, string, or bytes type (length required, field: "
        ++ f.name ++ ")") ∧
    ∃ e2, build_data_description s = .error e2 := by
  have hbf : buildField f =
      .error ("cannot have unannotated list, string, or bytes type (length required, field: "
        ++ f.name ++ ")") := by
    cases f with
    | mk fname ftype fdefault =>
      rcases hb with hh | hh | hh <;>
        (simp [StructField.ftype] at hh; subst hh; rfl)
  exact ⟨hbf, build_error_of_field s f hf _ hbf⟩

theorem bare_type_always_rejected_checked :
    (buildField (.mk "b" PyAnnType.bareStr none) =
      .error ("cannot have unannotated list, string, or bytes type (length required, field: "
        ++ (StructField.mk "b" PyAnnType.bareStr none).name ++ ")")) ∧
    ∃ e2, build_data_description BadInner = .error e2 :=
  bare_type_always_rejected BadInner (.mk "b" PyAnnType.bareStr none)
    (List.mem_singleton.mpr rfl) (Or.inr (Or.inl rfl))

/-- C7: a qualified type whose auxiliary length argument is not an integer is
rejected, but with a fixed message that does not depend on (and so cannot name)
the offending field, contrary to the spec requirement. -/
theorem non_integer_length_error_omits_field_name (fname : String) (fd : Option PyValue)
    (arg : AnnArgType) (descr : String) :
    buildField (.mk fname (.annotated arg [AnnAux.nonIntA descr]) fd) =
      .error "second annotated argument must be an integer to denote length" := rfl

/-- C8: running the build-then-compile pipeline twice on the same structure
definition yields identical results. -/
theorem pipeline_two_runs_byte_identical (s : Struct) (p1 p2 : Except String String)
    (h1 : patternOfStruct s = p1) (h2 : patternOfStruct s = p2) : p1 = p2 :=
  h1.symm.trans h2

theorem pipeline_two_runs_byte_identical_checked :
    (Except.ok "I" : Except String String) = Except.ok "I" :=
  pipeline_two_runs_byte_identical S0 (Except.ok "I") (Except.ok "I") rfl rfl

/-- C9 counterexample: building `S9`, whose only field is a string annotated
with length 0, succeeds, yet the returned tree contains a leaf of length 0, so
not every leaf of a successfully returned tree has positive length. -/
theorem returned_tree_has_nonpositive_length_leaf :
    build_data_description S9 = .ok
      [("__struct_type__", DescEntryVal.structMarker "Tagged"),
       ("tag0", DescEntryVal.basic
         { parsing_type := ParsingType.strT
           python_type := some PyType.str
           parser_tag := "0s"
           length := 0
           default_value := none })] ∧
    ¬ ∀ e ∈ leavesOfEntries
        [("__struct_type__", DescEntryVal.structMarker "Tagged"),
         ("tag0", DescEntryVal.basic
           { parsing_type := ParsingType.strT
             python_type := some PyType.str
             parser_tag := "0s"
             length := 0
             default_value := none })],
        0 < e.length ∧ e.parser_tag ≠ "" := by
  constructor
  · rfl
  · intro hall
    have hm := hall
      { parsing_type := ParsingType.strT
        python_type := some PyType.str
        parser_tag := "0s"
        length := 0
        default_value := none } (by decide)
    exact absurd hm.1 (by decide)

/-- C9 amended: every leaf of a tree successfully returned by
`build_data_description` has a non-empty pack tag, and every leaf of an
elementary registry kind additionally has positive length. -/
theorem build_leaf_tags_nonempty_elementary_positive (s : Struct)
    (d : List (String × DescEntryVal)) (h : build_data_description s = .ok d)
    (e : BasicParsingElement) (he : e ∈ leavesOfEntries d) :
    e.parser_tag ≠ "" ∧ ∀ k, e.parsing_type = ParsingType.elemT k → 0 < e.length :=
  leafInv_struct s d h e he

theorem build_leaf_tags_nonempty_elementary_positive_checked :
    (elementaryElement .u32 none).parser_tag ≠ "" ∧
    ∀ k, (elementaryElement .u32 none).parsing_type = ParsingType.elemT k →
      0 < (elementaryElement .u32 none).length :=
  build_leaf_tags_nonempty_elementary_positive S0
    [("__struct_type__", DescEntryVal.structMarker "Header"),
     ("ts", DescEntryVal.basic (elementaryElement .u32 none))]
    rfl (elementaryElement .u32 none) (by decide)

/-- C10 counterexample: a repeated block of count 0 over the ill-formed nested
structure `BadInner` does not build: the inner schema is built once even for a
zero count, so `build_data_description` raises. -/
theorem zero_count_block_over_ill_formed_inner_raises :
    build_data_description SC10 =
      .error "cannot have unannotated list, string, or bytes type (length required, field: b)" :=
  rfl

/-- C10 amended: a repeated block whose count N is zero or negative yields an
empty block (contributing the empty pattern) for an elementary element kind,
and likewise for a nested-structure element kind provided the inner structure
itself builds successfully. -/
theorem nonpositive_count_yields_empty_block (fname : String) (fd : Option PyValue)
    (k : ElemKind) (s : Struct) (d : List (String × DescEntryVal)) (N : Int)
    (hN : N ≤ 0) (hs : build_data_description s = .ok d) :
    buildField (.mk fname (.annotated (.listOf [ListArg.elemL k]) [AnnAux.intA N]) fd)
      = .ok (.listV []) ∧
    buildField (.mk fname (.annotated (.listOf [ListArg.dataclassL s]) [AnnAux.intA N]) fd)
      = .ok (.listV []) ∧
    patternOfValue fname (DescEntryVal.listV []) = .ok "" := by
  have hz : N.toNat = 0 := Int.toNat_of_nonpos hN
  refine ⟨?_, ?_, rfl⟩
  · show buildAnnotated fname fd (.listOf [ListArg.elemL k]) N = .ok (.listV [])
    rw [show buildAnnotated fname fd (.listOf [ListArg.elemL k]) N =
        Except.ok (.listV (List.replicate N.toNat (.basic (elementaryElement k none))))
      from rfl, hz]
    rfl
  · show buildAnnotated fname fd (.listOf [ListArg.dataclassL s]) N = .ok (.listV [])
    rw [buildAnnotated_dataclassList, hs]
    simp only [Except.bind]
    rw [hz]
    rfl

theorem nonpositive_count_yields_empty_block_checked :
    (buildField (.mk "xs" (.annotated (.listOf [ListArg.elemL .u8]) [AnnAux.intA (-2)]) none)
      = .ok (.listV [])) ∧
    (buildField (.mk "xs" (.annotated (.listOf [ListArg.dataclassL S0]) [AnnAux.intA (-2)]) none)
      = .ok (.listV [])) ∧
    patternOfValue "xs" (DescEntryVal.listV []) = .ok "" :=
  nonpositive_count_yields_empty_block "xs" none .u8 S0
    [("__struct_type__", DescEntryVal.structMarker "Header"),
     ("ts", DescEntryVal.basic (elementaryElement .u32 none))]
    (-2) (by decide) rfl

end Bytechomp
